import Mathlib

/-!
Verification of the FIFO-based streaming core of `simple_blast`
(`src/simple_blast/fifo.py` and `src/simple_blast/sam.py`), as a shallow
embedding.  Bytes are `Nat`, byte strings are `List Nat`, Python exceptions
are an explicit inductive type, and each Python routine relevant to a claim
is translated into a total Lean function over explicit state.
-/

namespace SimpleBlast

/-- Python exception values that the code under study can raise or handle. -/
inductive PyExc where
  /-- `BrokenPipeError`: the peer closed the read end during a write. -/
  | brokenPipeError : PyExc
  /-- `OSError` carrying its `errno` (`e.args[0]` in the source). -/
  | osError (errno : Nat) : PyExc
  /-- `TypeError`, e.g. from binding an unexpected keyword argument. -/
  | typeError (msg : String) : PyExc
  /-- `FIFOError` from fifo.py line 47 (the spec calls it `WorkerError`). -/
  | fifoError (msg : String) : PyExc
  /-- Any other exception, identified by its class name. -/
  | other (name : String) : PyExc
deriving DecidableEq, Repr

/-- Decidable equality for `Except`, needed to evaluate model outcomes on
concrete inputs. -/
instance {ε α : Type} [DecidableEq ε] [DecidableEq α] :
    DecidableEq (Except ε α) := fun a b =>
  match a, b with
  | .ok x, .ok y =>
    if h : x = y then .isTrue (by rw [h]) else
      .isFalse (by intro hc; cases hc; exact h rfl)
  | .error x, .error y =>
    if h : x = y then .isTrue (by rw [h]) else
      .isFalse (by intro hc; cases hc; exact h rfl)
  | .ok _, .error _ => .isFalse (by intro hc; cases hc)
  | .error _, .ok _ => .isFalse (by intro hc; cases hc)

/-- `errno.ENXIO` ("no such device"), the error a non-blocking write-side
open of a FIFO raises when no process holds the read end open. -/
def ENXIO : Nat := 6

/-! ## The pipe and in-memory buffer model

A named pipe carries a byte stream from the writer to the reader.  We model
the stream contents as a list of bytes together with a flag recording
whether the write end has been closed (which is what makes `read()` on the
other side return end-of-stream). -/

/-- State of one named pipe: the bytes written so far and whether the write
end has been closed (EOF is observable by the reader only then). -/
structure PipeState where
  contents : List Nat
  writeClosed : Bool
deriving DecidableEq, Repr

/-- A freshly created pipe: empty, write end not yet closed. -/
def PipeState.empty : PipeState := ⟨[], false⟩

/-- An in-memory growable buffer (`io.BytesIO` / `io.StringIO`): `write`
appends, `getvalue` returns the accumulated contents. -/
structure MemBuffer where
  data : List Nat
deriving DecidableEq, Repr

/-- `MemBuffer.write`: append bytes to the buffer (the `io_.write` call in
`read_thread`). -/
def MemBuffer.write (b : MemBuffer) (bs : List Nat) : MemBuffer :=
  ⟨b.data ++ bs⟩

/-- `MemBuffer.getvalue` (`ReaderFifo.get`, fifo.py lines 177-178). -/
def MemBuffer.getvalue (b : MemBuffer) : List Nat := b.data

/-- `write_data` (fifo.py lines 121-123): open the pipe's write end, write
the whole payload, and close via scoped acquisition (`with`), so the write
end is closed on exit.  The pipe receives the payload appended to its
contents and its write end is marked closed. -/
def write_data (data : List Nat) (pipe : PipeState) : PipeState :=
  { contents := pipe.contents ++ data, writeClosed := true }

/-- `f.read()` on the read end of a pipe whose write end has been closed:
returns every byte of the stream (reads to end-of-stream). -/
def readAll (pipe : PipeState) : List Nat := pipe.contents

/-- `read_thread` (fifo.py lines 139-141): open the pipe's read end, read to
end-of-stream, and write the result into the owned in-memory buffer. -/
def read_thread (io_ : MemBuffer) (pipe : PipeState) : MemBuffer :=
  io_.write (readAll pipe)

end SimpleBlast

namespace SimpleBlast

/-! ## Worker wrapping, failure events and teardown -/

/-- `io_thread_wrap` (fifo.py lines 38-45): run the I/O routine; if it
raises any exception, set the error event and re-raise on the worker
thread.  Input: the routine's outcome and the error event's prior state;
output: the error event afterwards and the outcome propagating out of the
worker thread (where it is printed and lost, since nothing joins on a
return value). -/
def io_thread_wrap (result : Except PyExc Unit) (errorEvent : Bool) :
    Bool × Except PyExc Unit :=
  match result with
  | .ok () => (errorEvent, .ok ())
  | .error e => (true, .error e)

/-- `ignored_sigpipe` (fifo.py lines 98-104): run the routine and swallow
`BrokenPipeError`; every other outcome passes through unchanged. -/
def ignored_sigpipe (result : Except PyExc Unit) : Except PyExc Unit :=
  match result with
  | .error .brokenPipeError => .ok ()
  | r => r

/-- Outcome of `IOFIFO.destroy`: the exception it raises to the caller, if
any, and whether the FIFO special file was removed from the filesystem
(`super().destroy()`, which runs `os.remove`, was reached). -/
structure DestroyOutcome where
  raised : Option PyExc
  fileRemoved : Bool
deriving DecidableEq, Repr

/-- `IOFIFO.destroy` (fifo.py lines 89-96).  Parameters: whether the worker
thread is still alive when `destroy` runs, the outcome of
`_clean_up_thread`, and the state of the error event after the worker (has)
run.  Control flow from the source: only when the thread is alive does the
code clean up, join, and check the error event, raising
`FIFOError("FIFO thread failed.")` if it is set; `super().destroy()`
(removing the file) runs only if nothing was raised first. -/
def IOFIFO.destroy (threadAlive : Bool) (cleanUp : Except PyExc Unit)
    (errorEventSet : Bool) : DestroyOutcome :=
  if threadAlive then
    match cleanUp with
    | .error e => ⟨some e, false⟩
    | .ok () =>
      if errorEventSet then
        ⟨some (.fifoError "FIFO thread failed."), false⟩
      else
        ⟨none, true⟩
  else
    ⟨none, true⟩

/-- `ReaderFifo._clean_up_thread` (fifo.py lines 168-175), after the
`_opened` wait has returned: probe-open the write side non-blocking and
close it; on an `OSError`, re-raise unless ignoring ENXIO is enabled and
the errno is exactly `ENXIO`.  `probe` is the outcome of the
`os.open`/`os.close` pair. -/
def ReaderFifo.clean_up_thread (ignore_enxio : Bool)
    (probe : Except PyExc Unit) : Except PyExc Unit :=
  match probe with
  | .ok () => .ok ()
  | .error (.osError e) =>
    if ignore_enxio ∧ e = ENXIO then .ok () else .error (.osError e)
  | .error e => .error e

/-! ## Opening a FIFO end -/

/-- Result of a worker's open attempt: the state of the `_opened` event
afterwards, and the outcome that propagates out of `open_`. -/
structure OpenOutcome where
  openedEventSet : Bool
  result : Except PyExc Unit
deriving DecidableEq, Repr

/-- `IOFIFO.fifo_open` (fifo.py lines 54-65): attempt `os.open`/`open` of
the path in the worker's mode, run `_post_open` on the handle, and in a
`finally` block set the `_opened` event — so the event is set whether the
open returned a handle or raised, and whether `_post_open` returned or
raised.  `osOpen` is the outcome of the open call, `postOpen` of
`_post_open` (only reached if the open succeeded). -/
def fifo_open (osOpen : Except PyExc Unit) (postOpen : Except PyExc Unit) :
    OpenOutcome :=
  match osOpen with
  | .error e => { openedEventSet := true, result := .error e }
  | .ok () =>
    match postOpen with
    | .error e => { openedEventSet := true, result := .error e }
    | .ok () => { openedEventSet := true, result := .ok () }

/-! ## OS facts about non-blocking FIFO opens

POSIX named-pipe semantics: opening a FIFO `O_RDONLY | O_NONBLOCK`
succeeds immediately regardless of peers; opening it
`O_WRONLY | O_NONBLOCK` succeeds when some process holds the read end
open and otherwise fails with `OSError(ENXIO)`. -/

/-- A non-blocking read-side open of a FIFO: always succeeds. -/
def openNonblockRead : Except PyExc Unit := .ok ()

/-- A non-blocking write-side open of a FIFO: succeeds iff some process
holds the read end open, else raises `OSError(ENXIO)`. -/
def openNonblockWrite (readerPresent : Bool) : Except PyExc Unit :=
  if readerPresent then .ok () else .error (.osError ENXIO)

/-- `WriterFIFO._clean_up_thread` (fifo.py lines 116-119): open the read
side non-blocking (this releases the worker's blocking write-side open),
wait for the `_opened` event, close the transient descriptor.
`openedEventSet` says whether the `_opened` event is (or becomes) set once
the read side is open; if it never is, the wait hangs, modelled as
`none`. -/
def WriterFIFO.clean_up_thread (openedEventSet : Bool) :
    Option (Except PyExc Unit) :=
  match openNonblockRead with
  | .error e => some (.error e)
  | .ok () => if openedEventSet then some (.ok ()) else none

/-! ## The writer worker under its default configuration -/

/-- Writing payload `data` into a pipe whose reading peer closes after
accepting `accepted` bytes: if the whole payload fits before the close the
write succeeds; otherwise the first `accepted` bytes are transferred and
the write raises `BrokenPipeError`.  Returns the bytes the pipe carried and
the outcome of `write_data`. -/
def writeToClosingPeer (data : List Nat) (accepted : Nat) :
    List Nat × Except PyExc Unit :=
  if data.length ≤ accepted then (data, .ok ())
  else (data.take accepted, .error .brokenPipeError)

/-- The `WriterFIFO` worker routine as assembled by its constructor
(fifo.py lines 106-114): `write_data` wrapped in `ignored_sigpipe` when
`ignore_sigpipe` is enabled (the default), then in `io_thread_wrap` with a
fresh (unset) error event.  `writeOutcome` is the outcome of the write
itself. -/
def writerWorker (ignore_sigpipe : Bool) (writeOutcome : Except PyExc Unit) :
    Bool × Except PyExc Unit :=
  io_thread_wrap
    (if ignore_sigpipe then ignored_sigpipe writeOutcome else writeOutcome)
    false

/-! ## Create-then-destroy with no peer -/

/-- Scenario from fifo.py lines 77-96 and 106-119: `WriterFIFO.create()`
immediately followed by `destroy()` with no external peer.  The worker is
blocked in its write-side open, so the thread is alive; destroy's
unblocking step opens the read side non-blocking (always succeeds),
releasing the worker's open, whose `fifo_open` wrapper sets the `_opened`
event (the writer's `_post_open` only sets the event); the wait returns and
the transient read end is closed.  The worker then writes against a pipe
whose only reader has closed: within `pipeCapacity` bytes the write
completes, beyond it `BrokenPipeError` is raised and swallowed by
`ignored_sigpipe`.  The worker exits, join returns, and destroy checks the
error event.  `none` models a wait that could hang forever. -/
def writerCreateDestroyNoPeer (payload : List Nat) (pipeCapacity : Nat) :
    Option DestroyOutcome :=
  match WriterFIFO.clean_up_thread
      (fifo_open (.ok ()) (.ok ())).openedEventSet with
  | none => none
  | some (.error e) => some ⟨some e, false⟩
  | some (.ok ()) =>
    some (IOFIFO.destroy true (.ok ())
      (writerWorker true (writeToClosingPeer payload pipeCapacity).2).1)

/-- Scenario from fifo.py lines 77-96 and 143-175: `ReaderFifo.create()`
immediately followed by `destroy()` with no external peer.  The worker's
non-blocking read-side open succeeds immediately; `_post_open` sets the
`_opened` event and then blocks in `poll.poll()` (no data, no writer), so
the thread is alive at destroy.  `_clean_up_thread` waits on the already
set `_opened` event, then probe-opens the write side non-blocking — the
blocked worker still holds the read end open, so this succeeds with no
ENXIO.  Closing that transient write end wakes the poll with a hangup; the
read loop sees end-of-stream at once, the worker writes the empty result
into its buffer and exits without error; join returns and destroy removes
the file. -/
def readerCreateDestroyNoPeer : Option DestroyOutcome :=
  if (fifo_open openNonblockRead (.ok ())).openedEventSet then
    match ReaderFifo.clean_up_thread true (openNonblockWrite true) with
    | .error e => some ⟨some e, false⟩
    | .ok () =>
      some (IOFIFO.destroy true (.ok ())
        (io_thread_wrap (.ok ()) false).1)
  else
    none

end SimpleBlast

namespace SimpleBlast

/-! ## The merge coordination (sam.py, pysam-present branch) -/

/-- Keyword parameters accepted by `ReaderFifo.__init__`
(fifo.py lines 143-150): `io_`, `read_mode`, `suffix`, `ignore_enxio`
(besides `self`); the signature declares no `**kwargs`. -/
def readerFifoParams : List String := ["io_", "read_mode", "suffix", "ignore_enxio"]

/-- Keyword arguments of the `ReaderFifo` construction inside
`merge_sam_bytes` (sam.py line 63): `io_`, `mode`, `suffix`. -/
def readerFifoCallKwargs : List String := ["io_", "mode", "suffix"]

/-- Python call binding for keyword arguments: a call binds iff every
keyword names a declared parameter (no `**kwargs` catch-all); otherwise
the call raises `TypeError` for the unexpected keyword. -/
def kwargsBind (params call : List String) : Bool :=
  call.all (fun k => params.contains k)

/-- Environment of one `merge_sam_bytes` run: the unique paths `mktemp`
hands to the writer FIFOs and the reader FIFO, the external merge tool's
behavior (output bytes as a function of the input streams in argument
order), and the exit status the child process would produce. -/
structure MergeEnv where
  writerPaths : List String
  readerPath : String
  mergeTool : List (List Nat) → List Nat
  exitStatus : Int

/-- Observable outcome of one `merge_sam_bytes` call: whether the external
merge process was launched, the path arguments it was given, and the
call's result. -/
structure MergeRun where
  processLaunched : Bool
  processArgs : List String
  result : Except PyExc (List Nat)
deriving DecidableEq, Repr

/-- `merge_sam_bytes` (sam.py lines 58-72, pysam-present branch).  One
`BinaryWriterFifo` per payload is constructed and entered on the exit
stack (their workers start); then `ReaderFifo(io_=io.BytesIO, mode="rb",
suffix=".sam")` is evaluated: its keyword binding is checked against
`ReaderFifo.__init__`'s parameters.  If binding succeeded the code would
launch the spawn-context process with arguments `(reader.name,) +
tuple(f.name for f in fifos)`, join it, and return `reader.get()` without
consulting the exit status; as written, binding fails, the exit stack
unwinds the writers, and `TypeError` propagates before any process is
launched. -/
def merge_sam_bytes (sams : List (List Nat)) (env : MergeEnv) : MergeRun :=
  if kwargsBind readerFifoParams readerFifoCallKwargs then
    { processLaunched := true,
      processArgs := env.readerPath :: env.writerPaths,
      result := .ok (env.mergeTool sams) }
  else
    { processLaunched := false,
      processArgs := [],
      result := .error (.typeError
        "__init__ got an unexpected keyword argument: mode") }

/-- A child process handle (`ctx.Process`): the status the child will exit
with, and the fields `start`/`join` set. -/
structure Process where
  targetStatus : Int
  started : Bool
  exitcode : Option Int
deriving DecidableEq, Repr

/-- `Process.start` (sam.py line 70): mark the process started. -/
def Process.start (p : Process) : Process := { p with started := true }

/-- `Process.join` (sam.py line 71): wait for exit; the exit status becomes
observable on the handle. -/
def Process.join (p : Process) : Process :=
  { p with exitcode := some p.targetStatus }

/-- Sam.py lines 70-72 (`merge_proc.start()`, `merge_proc.join()`,
`return reader.get()`): the tail of the merge coordination after the
process is created.  The exit code is recorded on the handle by `join` but
never read by the code; the reader's buffered bytes are returned
unconditionally. -/
def mergeTail (p : Process) (reader : MemBuffer) :
    Process × Except PyExc (List Nat) :=
  let p1 := (p.start).join
  (p1, .ok reader.getvalue)

end SimpleBlast

namespace SimpleBlast

/-! ## Helper lemmas -/

/-- The keyword `mode` used at sam.py line 63 is not among the parameters
of `ReaderFifo.__init__`, so the keyword binding of that call fails. -/
theorem readerKwargsMismatch :
    kwargsBind readerFifoParams readerFifoCallKwargs = false := by decide

/-! ## Claims -/

/-- C1: the claim says `merge_sam_bytes` launches the external merge
process (output path first, then input paths in payload order) and returns
the reader's buffered bytes — `"a\nb\nc\n"` for payloads
`["a\n","b\n","c\n"]` under a concatenating tool.  Evaluating the code at
exactly that input: the `ReaderFifo` construction raises `TypeError`
(unexpected keyword `mode`), the process is never launched, and no bytes
are returned. -/
theorem C1_merge_raises_before_launch :
    merge_sam_bytes [[97, 10], [98, 10], [99, 10]]
      ⟨["w0.sam", "w1.sam", "w2.sam"], "out.sam", List.flatten, 0⟩
      = { processLaunched := false, processArgs := [],
          result := .error (.typeError
            "__init__ got an unexpected keyword argument: mode") } := rfl

/-- C2: for every payload P — including the empty payload — writing P
through `write_data` into a pipe and reading that pipe to end-of-stream
with `read_thread` yields a buffer whose contents equal P byte-for-byte:
the composition is the identity on payloads. -/
theorem C2_writer_reader_roundtrip (P : List Nat) :
    (read_thread ⟨[]⟩ (write_data P PipeState.empty)).getvalue = P := by
  simp [read_thread, write_data, readAll, MemBuffer.write,
    MemBuffer.getvalue, PipeState.empty]

/-- C3: with pysam present, every call of `merge_sam_bytes`, for any
payload list and environment, raises `TypeError` while constructing the
reader channel — before the external merge process is ever launched —
because the call passes the keyword `mode`, which is not among the
parameters accepted by `ReaderFifo.__init__`. -/
theorem C3_merge_always_typeError (sams : List (List Nat)) (env : MergeEnv) :
    (merge_sam_bytes sams env).result
        = .error (.typeError "__init__ got an unexpected keyword argument: mode") ∧
    (merge_sam_bytes sams env).processLaunched = false ∧
    readerFifoParams.contains "mode" = false := by
  refine ⟨?_, ?_, by decide⟩ <;>
    simp [merge_sam_bytes, readerKwargsMismatch]

/-- C4 counterexample: a Worker whose routine raised does set the error
event on its own context, yet when the worker thread has already exited by
the time `destroy()` runs, destroy skips the error check entirely and
returns normally — the failure is dropped silently, contrary to the
claim. -/
theorem C4_error_dropped_when_thread_exited :
    (io_thread_wrap (.error (.other "ValueError")) false).1 = true ∧
    IOFIFO.destroy false (.ok ()) true = ⟨none, true⟩ := ⟨rfl, rfl⟩

/-- C4 amended: a Worker's exception sets the failure event on the
worker's own execution context, and is surfaced at `destroy()` as
`FIFOError` (which does not wrap the original cause) — but only when the
worker thread is still alive when `destroy()` is called; if the worker has
already exited, the failure event is ignored and `destroy()` returns
normally. -/
theorem C4_amended_surfaced_only_when_alive (e : PyExc) :
    (io_thread_wrap (.error e) false).1 = true ∧
    IOFIFO.destroy true (.ok ()) true
      = ⟨some (.fifoError "FIFO thread failed."), false⟩ ∧
    IOFIFO.destroy false (.ok ()) true = ⟨none, true⟩ := ⟨rfl, rfl, rfl⟩

/-- C5 counterexample: with a child process that exits with status 1, the
post-launch merge tail records exit code 1 on the handle and still reports
success with the reader's bytes — it does not fail at all, let alone with
a `MergeProcessError` carrying status 1. -/
theorem C5_nonzero_exit_reports_success :
    mergeTail ⟨1, false, none⟩ ⟨[120]⟩
      = (⟨1, true, some 1⟩, .ok [120]) := rfl

/-- C5 amended: the merge coordination never inspects the external
process's exit status (and the code defines no `MergeProcessError`): after
start/join the reader's bytes are returned unconditionally, for any exit
status; moreover, as written, the coordination fails with `TypeError`
before the process is ever launched. -/
theorem C5_amended_exit_status_ignored (p : Process) (reader : MemBuffer)
    (sams : List (List Nat)) (env : MergeEnv) :
    (mergeTail p reader).2 = .ok reader.getvalue ∧
    (mergeTail p reader).1.exitcode = some p.targetStatus ∧
    (merge_sam_bytes sams env).processLaunched = false := by
  refine ⟨rfl, rfl, ?_⟩
  simp [merge_sam_bytes, readerKwargsMismatch]

/-- C6 counterexample: a ThreadedIOFIFO whose Worker failed and whose
thread is still alive at `destroy()` raises `FIFOError` before
`super().destroy()` is reached, so the FIFO special file is NOT removed
from the filesystem, contrary to the claim. -/
theorem C6_file_not_removed_after_failure :
    IOFIFO.destroy true (.ok ()) true
      = ⟨some (.fifoError "FIFO thread failed."), false⟩ := rfl

/-- C6 amended: `destroy()` removes the FIFO file exactly on the paths
where it raises nothing: when the Worker failed and its thread is still
alive at `destroy()`, `FIFOError` is raised before the file removal and
the file is left on disk; when the failed Worker has already exited, the
file is removed (and the failure is not reported). -/
theorem C6_amended_removed_iff_no_raise (alive ev : Bool)
    (cu : Except PyExc Unit) :
    ((IOFIFO.destroy alive cu ev).fileRemoved = true ↔
      (IOFIFO.destroy alive cu ev).raised = none) ∧
    (IOFIFO.destroy true (.ok ()) true).fileRemoved = false ∧
    (IOFIFO.destroy false (.ok ()) true).fileRemoved = true := by
  refine ⟨?_, rfl, rfl⟩
  cases alive <;> cases ev <;> rcases cu with e | u <;>
    simp [IOFIFO.destroy]

/-- C7: for a WriterChannel under its default configuration
(`ignore_sigpipe` enabled), if the peer closes its read end after accepting
only part of the payload, the write is abandoned (the pipe carried exactly
the accepted prefix and `BrokenPipeError` was raised), the condition is not
recorded as a Worker failure (the error event stays unset), and `destroy()`
raises nothing. -/
theorem C7_broken_pipe_recoverable (data : List Nat) (accepted : Nat)
    (h : accepted < data.length) :
    (writeToClosingPeer data accepted).1 = data.take accepted ∧
    (writeToClosingPeer data accepted).2 = .error .brokenPipeError ∧
    (writerWorker true (writeToClosingPeer data accepted).2).1 = false ∧
    IOFIFO.destroy true (.ok ())
        (writerWorker true (writeToClosingPeer data accepted).2).1
      = ⟨none, true⟩ := by
  have hn : ¬ data.length ≤ accepted := Nat.not_le.mpr h
  simp [writeToClosingPeer, hn, writerWorker, ignored_sigpipe,
    io_thread_wrap, IOFIFO.destroy]

/-- C7 witness: the theorem applied to payload `[9, 9]` with a peer that
accepts a single byte before closing. -/
theorem C7_broken_pipe_recoverable_witness :
    (writeToClosingPeer [9, 9] 1).1 = [9, 9].take 1 ∧
    (writeToClosingPeer [9, 9] 1).2 = .error .brokenPipeError ∧
    (writerWorker true (writeToClosingPeer [9, 9] 1).2).1 = false ∧
    IOFIFO.destroy true (.ok ())
        (writerWorker true (writeToClosingPeer [9, 9] 1).2).1
      = ⟨none, true⟩ :=
  C7_broken_pipe_recoverable [9, 9] 1 (by decide)

/-- C8: during ReaderChannel teardown with ENXIO-ignoring enabled, a probe
failure with `OSError(ENXIO)` is swallowed and teardown continues (the
file still gets removed); any other probe failure — a different errno or a
different exception class — propagates unchanged to the caller. -/
theorem C8_enxio_swallowed_exactly (e : PyExc) (h : e ≠ .osError ENXIO) :
    ReaderFifo.clean_up_thread true (.error (.osError ENXIO)) = .ok () ∧
    IOFIFO.destroy true
        (ReaderFifo.clean_up_thread true (.error (.osError ENXIO))) false
      = ⟨none, true⟩ ∧
    ReaderFifo.clean_up_thread true (.error e) = .error e := by
  refine ⟨rfl, rfl, ?_⟩
  cases e with
  | osError n =>
    rcases eq_or_ne n ENXIO with hn | hn
    · exact absurd (by rw [hn]) h
    · simp [ReaderFifo.clean_up_thread, hn]
  | brokenPipeError => rfl
  | typeError m => rfl
  | fifoError m => rfl
  | other m => rfl

/-- C8 witness: the theorem applied to the probe failure `OSError(2)`
(ENOENT), which must propagate. -/
theorem C8_enxio_swallowed_exactly_witness :
    ReaderFifo.clean_up_thread true (.error (.osError ENXIO)) = .ok () ∧
    IOFIFO.destroy true
        (ReaderFifo.clean_up_thread true (.error (.osError ENXIO))) false
      = ⟨none, true⟩ ∧
    ReaderFifo.clean_up_thread true (.error (.osError 2))
      = .error (.osError 2) :=
  C8_enxio_swallowed_exactly (.osError 2) (by decide)

/-- C9: for every outcome of the worker's open call and of the post-open
step — a handle returned, the open raising, or the post-open step
raising — `fifo_open` leaves the `_opened` event set, so a teardown step
waiting on it is never left waiting because the open failed. -/
theorem C9_opened_set_on_every_outcome (osOpen postOpen : Except PyExc Unit) :
    (fifo_open osOpen postOpen).openedEventSet = true := by
  cases osOpen with
  | error e => rfl
  | ok u =>
    cases u
    cases postOpen with
    | error e => rfl
    | ok v => cases v; rfl

/-- C10: for both channel kinds, `create()` followed immediately by
`destroy()` with no peer ever opening the opposite end completes — every
wait in the sequence is released (no `none` outcome) — raising nothing;
in particular the reader-side probe (write end non-blocking, taken while
the worker still holds the read end) succeeds, so no "no such
device"-class error arises on this path. -/
theorem C10_create_destroy_no_peer (payload : List Nat) (cap : Nat) :
    writerCreateDestroyNoPeer payload cap = some ⟨none, true⟩ ∧
    readerCreateDestroyNoPeer = some ⟨none, true⟩ ∧
    openNonblockWrite true = .ok () := by
  refine ⟨?_, rfl, rfl⟩
  by_cases hc : payload.length ≤ cap <;>
    simp [writerCreateDestroyNoPeer, WriterFIFO.clean_up_thread,
      openNonblockRead, fifo_open, writerWorker, writeToClosingPeer,
      ignored_sigpipe, io_thread_wrap, IOFIFO.destroy, hc]

end SimpleBlast
